import Mathlib

/-!
Verification of the stock-risk derivation and alerting pipeline of the TB-care
inventory dashboard (streamlit_dashboard.py).

The per-row metric calculator is the block of derived columns

  daily_need                  = TB_CASES_ACTIVE / 30.0
  days_of_therapy_left        = CLOSING_STOCK / daily_need   if daily_need > 0, else NaN
  stock_risk_flag             = days_of_therapy_left < LEAD_TIME_DAYS
  programmatic_risk           = TB_RISK_SCORE * 2 if stock_risk_flag else TB_RISK_SCORE
  days_until_stockout_vs_lead = days_of_therapy_left - LEAD_TIME_DAYS
  suggested_reorder_qty       = daily_need * (LEAD_TIME_DAYS + 30) if stock_risk_flag else 0

The floating-point NaN sentinel is embedded as an Option on the rationals:
none plays the role of NaN, and every numeric comparison against none is false,
exactly as a comparison against NaN is false in the source.  NaN propagation
through subtraction is Option.map; abs of NaN stays NaN, so the severity label
of an undefined shortfall takes the else branch, as in the source.
-/

namespace TBCare

/-- One inventory observation, one per location+item+date, with the columns the
pipeline reads: LOCATION, ITEM, DATE, CLOSING_STOCK, TB_CASES_ACTIVE,
LEAD_TIME_DAYS, TB_RISK_SCORE.  Dates are modelled as integers (day numbers),
all other numeric columns as rationals. -/
structure InventoryObservation where
  location : String
  item : String
  date : Int
  closing_stock : ℚ
  tb_cases_active : ℚ
  lead_time_days : ℚ
  tb_risk_score : ℚ
deriving DecidableEq

/-- The daily consumption rate: TB_CASES_ACTIVE / 30.0. -/
def daily_need (o : InventoryObservation) : ℚ :=
  o.tb_cases_active / 30

/-- Days of therapy remaining: CLOSING_STOCK / daily_need where daily_need > 0,
NaN (none) otherwise — the np.where guard of the source. -/
def days_of_therapy_left (o : InventoryObservation) : Option ℚ :=
  if daily_need o > 0 then some (o.closing_stock / daily_need o) else none

/-- The stock-risk flag: days_of_therapy_left < LEAD_TIME_DAYS, where a
comparison against NaN is false. -/
def stock_risk_flag (o : InventoryObservation) : Bool :=
  match days_of_therapy_left o with
  | some d => decide (d < o.lead_time_days)
  | none => false

/-- The programmatic risk score: TB_RISK_SCORE * 2 when flagged, TB_RISK_SCORE
otherwise. -/
def programmatic_risk (o : InventoryObservation) : ℚ :=
  if stock_risk_flag o then o.tb_risk_score * 2 else o.tb_risk_score

/-- Days until stockout relative to the lead time:
days_of_therapy_left - LEAD_TIME_DAYS, with NaN propagating. -/
def days_until_stockout_vs_lead (o : InventoryObservation) : Option ℚ :=
  (days_of_therapy_left o).map (fun d => d - o.lead_time_days)

/-- The suggested reorder quantity: daily_need * (LEAD_TIME_DAYS + 30) when
flagged, 0 otherwise. -/
def suggested_reorder_qty (o : InventoryObservation) : ℚ :=
  if stock_risk_flag o then daily_need o * (o.lead_time_days + 30) else 0

/-- Critical tier of the status classifier:
days_until_stockout_vs_lead < 0 (false on NaN). -/
def isCritical (o : InventoryObservation) : Bool :=
  match days_until_stockout_vs_lead o with
  | some d => decide (d < 0)
  | none => false

/-- Warning tier of the status classifier:
days_until_stockout_vs_lead >= 0 (false on NaN) and stock_risk_flag. -/
def isWarning (o : InventoryObservation) : Bool :=
  (match days_until_stockout_vs_lead o with
   | some d => decide (0 ≤ d)
   | none => false) && stock_risk_flag o

/-- Adequate tier of the status classifier: not stock_risk_flag. -/
def isAdequate (o : InventoryObservation) : Bool :=
  !(stock_risk_flag o)

/-- Severity sub-label of a critical alert row: CRITICAL when the shortfall
magnitude abs(days_until_stockout_vs_lead) exceeds 7 days, URGENT otherwise.
On NaN the comparison is false and the else branch is taken, as in the
source. -/
def severity_label (o : InventoryObservation) : String :=
  match days_until_stockout_vs_lead o with
  | some d => if |d| > 7 then "CRITICAL" else "URGENT"
  | none => "URGENT"

/-! ### Helper lemmas about the per-row calculator -/

theorem days_until_eq_map (o : InventoryObservation) :
    days_until_stockout_vs_lead o = (days_of_therapy_left o).map (fun d => d - o.lead_time_days) :=
  rfl

theorem until_none_iff (o : InventoryObservation) :
    days_until_stockout_vs_lead o = none ↔ days_of_therapy_left o = none := by
  unfold days_until_stockout_vs_lead
  cases days_of_therapy_left o <;> simp

theorem flag_of_none {o : InventoryObservation} (h : days_of_therapy_left o = none) :
    stock_risk_flag o = false := by
  unfold stock_risk_flag
  rw [h]

theorem critical_eq_flag (o : InventoryObservation) :
    isCritical o = stock_risk_flag o := by
  unfold isCritical stock_risk_flag days_until_stockout_vs_lead
  cases h : days_of_therapy_left o with
  | none => rfl
  | some d =>
    simp only [Option.map_some']
    congr 1
    exact propext sub_neg

theorem warning_false (o : InventoryObservation) :
    isWarning o = false := by
  unfold isWarning stock_risk_flag days_until_stockout_vs_lead
  cases h : days_of_therapy_left o with
  | none => rfl
  | some d =>
    simp only [Option.map_some', Bool.and_eq_false_iff]
    by_cases hd : d < o.lead_time_days
    · left
      simp only [decide_eq_false_iff_not, not_le]
      exact sub_neg.mpr hd
    · right
      simpa using hd

theorem flag_iff_until_neg {o : InventoryObservation} {d : ℚ}
    (h : days_until_stockout_vs_lead o = some d) :
    stock_risk_flag o = true ↔ d < 0 := by
  unfold days_until_stockout_vs_lead at h
  cases hl : days_of_therapy_left o with
  | none => rw [hl] at h; simp at h
  | some t =>
    rw [hl] at h
    simp only [Option.map_some', Option.some.injEq] at h
    subst h
    unfold stock_risk_flag
    rw [hl]
    simp only [decide_eq_true_eq]
    exact (sub_neg).symm

/-! ### Concrete observations used as test inputs -/

/-- A zero-consumption row: no active cases, ample other fields. -/
def obsZero : InventoryObservation :=
  ⟨"Aceh", "RegimenB", 0, 500, 0, 20, 9⟩

/-- The flagged worked example of the spec: 900 active cases, 200 units of
stock, 20-day lead time. -/
def obsFlagged : InventoryObservation :=
  ⟨"Jakarta", "RegimenA", 0, 200, 900, 20, 6⟩

/-- A flagged row with base risk score 8. -/
def obsRisk8 : InventoryObservation :=
  ⟨"Papua", "RegimenC", 0, 200, 900, 20, 8⟩

/-- An unflagged row: 300 cases, 500 units, 14-day lead time (50 days left). -/
def obsSafe : InventoryObservation :=
  ⟨"Bali", "RegimenA", 0, 500, 300, 14, 6⟩

/-- A critical row whose shortfall is exactly 7 days: daily need 1, 13 units,
20-day lead time. -/
def obsShort7 : InventoryObservation :=
  ⟨"Jambi", "RegimenA", 0, 13, 30, 20, 5⟩

/-- A critical row whose shortfall is exactly 7.1 days. -/
def obsShort71 : InventoryObservation :=
  ⟨"Jambi", "RegimenA", 0, 129 / 10, 30, 20, 5⟩

/-- A row with negative closing stock and positive active cases. -/
def obsNegStock : InventoryObservation :=
  ⟨"Riau", "RegimenB", 0, -10, 90, 14, 4⟩

/-! ### Claims about the per-row calculator and classifier -/

/-- C1.  Classifier partition completeness: every row falls into exactly one of
Critical, Warning, Adequate — the three tiers are pairwise disjoint and cover
every row — and every row with undefined days_of_therapy_left is Adequate. -/
theorem claim_C1_partition :
    (∀ o : InventoryObservation,
      (isCritical o = true ∧ isWarning o = false ∧ isAdequate o = false) ∨
      (isCritical o = false ∧ isWarning o = true ∧ isAdequate o = false) ∨
      (isCritical o = false ∧ isWarning o = false ∧ isAdequate o = true)) ∧
    (∀ o : InventoryObservation,
      days_of_therapy_left o = none → isAdequate o = true) := by
  constructor
  · intro o
    rw [critical_eq_flag, warning_false]
    unfold isAdequate
    cases h : stock_risk_flag o
    · right; right; simp
    · left; simp
  · intro o h
    unfold isAdequate
    rw [flag_of_none h]
    rfl

/-- Witness for C1 at the zero-consumption row, whose days_of_therapy_left is
undefined: it is classified Adequate. -/
theorem claim_C1_partition_witness :
    isAdequate obsZero = true :=
  claim_C1_partition.2 obsZero (by simp [days_of_therapy_left, daily_need, obsZero])

/-- C2.  Zero-consumption invariant: tb_cases_active = 0 forces daily_need = 0,
undefined days_of_therapy_left, a false stock_risk_flag and a zero suggested
reorder quantity, whatever the other fields hold. -/
theorem claim_C2_zero_consumption :
    ∀ o : InventoryObservation, o.tb_cases_active = 0 →
      daily_need o = 0 ∧ days_of_therapy_left o = none ∧
      stock_risk_flag o = false ∧ suggested_reorder_qty o = 0 := by
  intro o h
  have hdn : daily_need o = 0 := by unfold daily_need; rw [h]; norm_num
  have hdays : days_of_therapy_left o = none := by
    unfold days_of_therapy_left
    rw [hdn]
    norm_num
  have hflag : stock_risk_flag o = false := flag_of_none hdays
  refine ⟨hdn, hdays, hflag, ?_⟩
  unfold suggested_reorder_qty
  rw [hflag]
  rfl

/-- Witness for C2 at a concrete row with zero active cases, 500 units of
stock, lead time 20 and risk score 9. -/
theorem claim_C2_zero_consumption_witness :
    daily_need obsZero = 0 ∧ days_of_therapy_left obsZero = none ∧
    stock_risk_flag obsZero = false ∧ suggested_reorder_qty obsZero = 0 :=
  claim_C2_zero_consumption obsZero rfl

/-- C3.  The Warning tier is always empty: stock_risk_flag holds exactly when
days_until_stockout_vs_lead is negative (both compare days_of_therapy_left with
the lead time), rows with undefined metrics are never flagged, and the Critical
set coincides with the flagged set. -/
theorem claim_C3_warning_empty :
    (∀ o : InventoryObservation, isWarning o = false) ∧
    (∀ o : InventoryObservation, isCritical o = stock_risk_flag o) ∧
    (∀ (o : InventoryObservation) (d : ℚ), days_until_stockout_vs_lead o = some d →
      (stock_risk_flag o = true ↔ d < 0)) ∧
    (∀ o : InventoryObservation, days_until_stockout_vs_lead o = none →
      stock_risk_flag o = false) :=
  ⟨warning_false, critical_eq_flag,
   fun _ _ h => flag_iff_until_neg h,
   fun o h => flag_of_none ((until_none_iff o).mp h)⟩

/-- Witness for C3 at the flagged worked example, whose shortfall is
-40/3 days. -/
theorem claim_C3_warning_empty_witness :
    stock_risk_flag obsFlagged = true ↔ (-40 / 3 : ℚ) < 0 :=
  claim_C3_warning_empty.2.2.1 obsFlagged (-40 / 3)
    (by norm_num [days_until_stockout_vs_lead, days_of_therapy_left, daily_need, obsFlagged])

/-- C4.  Reorder quantity: flagged rows get daily_need * (lead_time_days + 30),
unflagged rows get exactly 0; on the worked example (900 cases, 200 units,
20-day lead) the calculator yields daily_need 30, 20/3 days of therapy left,
a set flag, and a suggested reorder of 1500 units. -/
theorem claim_C4_reorder :
    (∀ o : InventoryObservation, stock_risk_flag o = true →
      suggested_reorder_qty o = daily_need o * (o.lead_time_days + 30)) ∧
    (∀ o : InventoryObservation, stock_risk_flag o = false →
      suggested_reorder_qty o = 0) ∧
    daily_need obsFlagged = 30 ∧
    days_of_therapy_left obsFlagged = some (20 / 3) ∧
    stock_risk_flag obsFlagged = true ∧
    suggested_reorder_qty obsFlagged = 1500 := by
  refine ⟨?_, ?_, ?_, ?_, ?_, ?_⟩
  · intro o h
    unfold suggested_reorder_qty
    rw [h]
    rfl
  · intro o h
    unfold suggested_reorder_qty
    rw [h]
    rfl
  · norm_num [daily_need, obsFlagged]
  · norm_num [days_of_therapy_left, daily_need, obsFlagged]
  · norm_num [stock_risk_flag, days_of_therapy_left, daily_need, obsFlagged]
  · norm_num [suggested_reorder_qty, stock_risk_flag, days_of_therapy_left, daily_need,
      obsFlagged]

/-- Witness for C4: both branches of the reorder rule applied at concrete
rows, a flagged one and the zero-consumption one. -/
theorem claim_C4_reorder_witness :
    suggested_reorder_qty obsFlagged = daily_need obsFlagged * (obsFlagged.lead_time_days + 30) ∧
    suggested_reorder_qty obsZero = 0 :=
  ⟨claim_C4_reorder.1 obsFlagged
      (by norm_num [stock_risk_flag, days_of_therapy_left, daily_need, obsFlagged]),
   claim_C4_reorder.2.1 obsZero
      (by norm_num [stock_risk_flag, days_of_therapy_left, daily_need, obsZero])⟩

/-- C5.  Programmatic risk: 2 * tb_risk_score when flagged, tb_risk_score
unchanged otherwise, with no clamp — a flagged row with base score 8 scores
16. -/
theorem claim_C5_programmatic :
    (∀ o : InventoryObservation, stock_risk_flag o = true →
      programmatic_risk o = 2 * o.tb_risk_score) ∧
    (∀ o : InventoryObservation, stock_risk_flag o = false →
      programmatic_risk o = o.tb_risk_score) ∧
    obsRisk8.tb_risk_score = 8 ∧
    stock_risk_flag obsRisk8 = true ∧
    programmatic_risk obsRisk8 = 16 := by
  refine ⟨?_, ?_, rfl, ?_, ?_⟩
  · intro o h
    unfold programmatic_risk
    rw [h]
    simp [mul_comm]
  · intro o h
    unfold programmatic_risk
    rw [h]
    rfl
  · norm_num [stock_risk_flag, days_of_therapy_left, daily_need, obsRisk8]
  · norm_num [programmatic_risk, stock_risk_flag, days_of_therapy_left, daily_need, obsRisk8]

/-- Witness for C5: both branches of the programmatic-risk rule applied at a
flagged row with base score 8 and at an unflagged row. -/
theorem claim_C5_programmatic_witness :
    programmatic_risk obsRisk8 = 2 * obsRisk8.tb_risk_score ∧
    programmatic_risk obsSafe = obsSafe.tb_risk_score :=
  ⟨claim_C5_programmatic.1 obsRisk8
      (by norm_num [stock_risk_flag, days_of_therapy_left, daily_need, obsRisk8]),
   claim_C5_programmatic.2.1 obsSafe
      (by norm_num [stock_risk_flag, days_of_therapy_left, daily_need, obsSafe])⟩

theorem severity_label_eq {o : InventoryObservation} {d : ℚ}
    (h : days_until_stockout_vs_lead o = some d) :
    (severity_label o = "CRITICAL" ↔ 7 < |d|) ∧
    (severity_label o = "URGENT" ↔ |d| ≤ 7) := by
  unfold severity_label
  rw [h]
  show ((if |d| > 7 then "CRITICAL" else "URGENT") = "CRITICAL" ↔ 7 < |d|) ∧
       ((if |d| > 7 then "CRITICAL" else "URGENT") = "URGENT" ↔ |d| ≤ 7)
  by_cases hd : |d| > 7
  · rw [if_pos hd]
    refine ⟨⟨fun _ => hd, fun _ => rfl⟩, ⟨fun hlab => absurd hlab (by simp), ?_⟩⟩
    intro hle
    exact absurd hd (not_lt.mpr hle)
  · rw [if_neg hd]
    refine ⟨⟨fun hlab => absurd hlab (by simp), fun hgt => absurd hgt hd⟩,
      ⟨fun _ => not_lt.mp hd, fun _ => rfl⟩⟩

theorem until_obsShort7 : days_until_stockout_vs_lead obsShort7 = some (-7) := by
  norm_num [days_until_stockout_vs_lead, days_of_therapy_left, daily_need, obsShort7]

theorem until_obsShort71 : days_until_stockout_vs_lead obsShort71 = some (-71 / 10) := by
  norm_num [days_until_stockout_vs_lead, days_of_therapy_left, daily_need, obsShort71]

/-- C7.  Severity sub-label boundary: on a Critical row the label is CRITICAL
exactly when the shortfall magnitude strictly exceeds 7 days and URGENT
otherwise; a shortfall of exactly 7 days is URGENT and 7.1 days is
CRITICAL. -/
theorem claim_C7_severity :
    (∀ (o : InventoryObservation) (d : ℚ), days_until_stockout_vs_lead o = some d → d < 0 →
      (severity_label o = "CRITICAL" ↔ 7 < |d|) ∧
      (severity_label o = "URGENT" ↔ |d| ≤ 7)) ∧
    (days_until_stockout_vs_lead obsShort7 = some (-7) ∧
      severity_label obsShort7 = "URGENT") ∧
    (days_until_stockout_vs_lead obsShort71 = some (-71 / 10) ∧
      severity_label obsShort71 = "CRITICAL") := by
  refine ⟨fun _ _ h _ => severity_label_eq h, ⟨until_obsShort7, ?_⟩, ⟨until_obsShort71, ?_⟩⟩
  · refine (severity_label_eq until_obsShort7).2.mpr ?_
    rw [abs_of_nonpos (by norm_num)]
    norm_num
  · refine (severity_label_eq until_obsShort71).1.mpr ?_
    rw [abs_of_nonpos (by norm_num)]
    norm_num

/-- Witness for C7: the boundary equivalence applied at the 7.1-day-shortfall
row. -/
theorem claim_C7_severity_witness :
    severity_label obsShort71 = "CRITICAL" ↔ 7 < |(-71 / 10 : ℚ)| :=
  (claim_C7_severity.1 obsShort71 (-71 / 10)
      (by norm_num [days_until_stockout_vs_lead, days_of_therapy_left, daily_need, obsShort71])
      (by norm_num)).1

/-- C9.  Negative-input tolerance: the calculator is a total function — zero or
negative stock and case counts are accepted, daily_need is always
tb_cases_active / 30 — and a row with positive active cases and negative
closing stock yields a defined, negative days_of_therapy_left rather than a
failure. -/
theorem claim_C9_negative :
    (∀ o : InventoryObservation, daily_need o = o.tb_cases_active / 30) ∧
    (∀ o : InventoryObservation, 0 < o.tb_cases_active → o.closing_stock < 0 →
      ∃ d : ℚ, days_of_therapy_left o = some d ∧ d < 0) := by
  refine ⟨fun _ => rfl, ?_⟩
  intro o hc hs
  have hdn : 0 < daily_need o := by
    unfold daily_need
    positivity
  refine ⟨o.closing_stock / daily_need o, ?_, ?_⟩
  · unfold days_of_therapy_left
    rw [if_pos hdn]
  · exact div_neg_of_neg_of_pos hs hdn

/-- Witness for C9 at a row with 90 active cases and -10 units of closing
stock. -/
theorem claim_C9_negative_witness :
    ∃ d : ℚ, days_of_therapy_left obsNegStock = some d ∧ d < 0 :=
  claim_C9_negative.2 obsNegStock (by norm_num [obsNegStock]) (by norm_num [obsNegStock])

/-! ### The latest-snapshot selector

The source computes
inv_df.sort_values("DATE").groupby(["LOCATION", "ITEM"]).tail(1):
sort rows by date, then keep, for each (LOCATION, ITEM) key, the last row
bearing that key. -/

/-- The grouping key of a row: the (LOCATION, ITEM) pair. -/
def keyOf (o : InventoryObservation) : String × String :=
  (o.location, o.item)

/-- Comparison by date, the sort key of sort_values("DATE"). -/
def dateLe (a b : InventoryObservation) : Prop :=
  a.date ≤ b.date

instance : DecidableRel dateLe :=
  fun a b => inferInstanceAs (Decidable (a.date ≤ b.date))

instance : IsTotal InventoryObservation dateLe :=
  ⟨fun a b => Int.le_total a.date b.date⟩

instance : IsTrans InventoryObservation dateLe :=
  ⟨fun _ _ _ h1 h2 => le_trans h1 h2⟩

/-- Keep, for each key, only the last row bearing that key — the per-group
tail(1) of the source, which preserves the row order of the sorted frame. -/
def tailOne : List InventoryObservation → List InventoryObservation
  | [] => []
  | o :: rest =>
    if rest.any (fun p => decide (keyOf p = keyOf o)) then tailOne rest
    else o :: tailOne rest

/-- The latest-snapshot selector: sort by date, then keep the last row of each
(LOCATION, ITEM) group. -/
def latestSnapshot (rows : List InventoryObservation) : List InventoryObservation :=
  tailOne (List.insertionSort dateLe rows)

theorem tailOne_sublist : ∀ l : List InventoryObservation, List.Sublist (tailOne l) l
  | [] => List.Sublist.refl _
  | o :: rest => by
    unfold tailOne
    by_cases h : rest.any (fun p => decide (keyOf p = keyOf o)) = true
    · rw [if_pos h]
      exact (tailOne_sublist rest).trans (List.sublist_cons_self o rest)
    · rw [if_neg h]
      exact (tailOne_sublist rest).cons₂ o

theorem tailOne_keys_nodup : ∀ l : List InventoryObservation, ((tailOne l).map keyOf).Nodup
  | [] => List.nodup_nil
  | o :: rest => by
    unfold tailOne
    by_cases h : rest.any (fun p => decide (keyOf p = keyOf o)) = true
    · rw [if_pos h]
      exact tailOne_keys_nodup rest
    · rw [if_neg h]
      rw [List.map_cons, List.nodup_cons]
      refine ⟨?_, tailOne_keys_nodup rest⟩
      intro hmem
      rcases List.mem_map.mp hmem with ⟨p, hp, hkp⟩
      have hp2 : p ∈ rest := (tailOne_sublist rest).subset hp
      exact h (List.any_eq_true.mpr ⟨p, hp2, decide_eq_true hkp⟩)

theorem tailOne_keys_mem :
    ∀ (l : List InventoryObservation) (k : String × String),
      k ∈ (tailOne l).map keyOf ↔ k ∈ l.map keyOf
  | [], _ => Iff.rfl
  | o :: rest, k => by
    unfold tailOne
    by_cases h : rest.any (fun p => decide (keyOf p = keyOf o)) = true
    · rw [if_pos h]
      rcases List.any_eq_true.mp h with ⟨p, hp, hkp⟩
      have hkp2 : keyOf p = keyOf o := of_decide_eq_true hkp
      rw [tailOne_keys_mem rest k, List.map_cons, List.mem_cons]
      constructor
      · exact Or.inr
      · rintro (rfl | hk)
        · exact List.mem_map.mpr ⟨p, hp, hkp2⟩
        · exact hk
    · rw [if_neg h]
      rw [List.map_cons, List.map_cons, List.mem_cons, List.mem_cons,
        tailOne_keys_mem rest k]

theorem tailOne_max :
    ∀ l : List InventoryObservation, l.Sorted dateLe →
      ∀ o ∈ tailOne l, ∀ p ∈ l, keyOf p = keyOf o → p.date ≤ o.date
  | [], _, o, ho => absurd ho (List.not_mem_nil o)
  | a :: rest, hs, o, ho => by
    rw [List.sorted_cons] at hs
    unfold tailOne at ho
    by_cases h : rest.any (fun p => decide (keyOf p = keyOf a)) = true
    · rw [if_pos h] at ho
      intro p hp hk
      rcases List.mem_cons.mp hp with rfl | hp2
      · exact hs.1 o ((tailOne_sublist rest).subset ho)
      · exact tailOne_max rest hs.2 o ho p hp2 hk
    · rw [if_neg h] at ho
      rcases List.mem_cons.mp ho with rfl | ho2
      · intro p hp hk
        rcases List.mem_cons.mp hp with rfl | hp2
        · exact le_refl _
        · exact absurd (List.any_eq_true.mpr ⟨p, hp2, decide_eq_true hk⟩) h
      · intro p hp hk
        rcases List.mem_cons.mp hp with rfl | hp2
        · exact hs.1 o ((tailOne_sublist rest).subset ho2)
        · exact tailOne_max rest hs.2 o ho2 p hp2 hk

theorem latestSnapshot_mem {rows : List InventoryObservation} {o : InventoryObservation}
    (h : o ∈ latestSnapshot rows) : o ∈ rows :=
  (List.perm_insertionSort dateLe rows).subset ((tailOne_sublist _).subset h)

theorem latestSnapshot_max {rows : List InventoryObservation} {o : InventoryObservation}
    (h : o ∈ latestSnapshot rows) :
    ∀ p ∈ rows, keyOf p = keyOf o → p.date ≤ o.date := by
  intro p hp hk
  exact tailOne_max (List.insertionSort dateLe rows)
    (List.sorted_insertionSort dateLe rows) o h p
    ((List.perm_insertionSort dateLe rows).mem_iff.mpr hp) hk

/-- Three observations for the Jakarta RegimenA pair, dated day 1, 2 and 3. -/
def jak1 : InventoryObservation :=
  ⟨"Jakarta", "RegimenA", 1, 900, 300, 14, 5⟩

/-- Day-2 observation for the Jakarta RegimenA pair. -/
def jak2 : InventoryObservation :=
  ⟨"Jakarta", "RegimenA", 2, 850, 310, 14, 5⟩

/-- Day-3 observation for the Jakarta RegimenA pair. -/
def jak3 : InventoryObservation :=
  ⟨"Jakarta", "RegimenA", 3, 800, 320, 14, 5⟩

/-- C6.  Latest-snapshot selector: the output carries exactly one row per
distinct (location, item) key of the input (its key list is duplicate-free and
has the same members as the input's); every output row is an input row whose
date is maximal among the input rows sharing its key; when dates within a key
are pairwise distinct, that maximal row is unique (every other same-key row is
strictly older); and on the three Jakarta rows dated day 1, 2, 3 the selector
returns exactly the day-3 row. -/
theorem claim_C6_selector :
    (∀ rows : List InventoryObservation,
      ((latestSnapshot rows).map keyOf).Nodup ∧
      ∀ k : String × String, k ∈ (latestSnapshot rows).map keyOf ↔ k ∈ rows.map keyOf) ∧
    (∀ (rows : List InventoryObservation) (o : InventoryObservation),
      o ∈ latestSnapshot rows →
        o ∈ rows ∧ ∀ p ∈ rows, keyOf p = keyOf o → p.date ≤ o.date) ∧
    (∀ (rows : List InventoryObservation) (o p : InventoryObservation),
      rows.Pairwise (fun a b => keyOf a = keyOf b → a.date ≠ b.date) →
      o ∈ latestSnapshot rows → p ∈ rows → keyOf p = keyOf o → p ≠ o →
        p.date < o.date) ∧
    latestSnapshot [jak1, jak2, jak3] = [jak3] := by
  refine ⟨?_, ?_, ?_, ?_⟩
  · intro rows
    refine ⟨tailOne_keys_nodup _, fun k => ?_⟩
    unfold latestSnapshot
    rw [tailOne_keys_mem _ k]
    constructor
    · intro hk
      rcases List.mem_map.mp hk with ⟨p, hp, hkp⟩
      exact List.mem_map.mpr ⟨p, (List.perm_insertionSort dateLe rows).subset hp, hkp⟩
    · intro hk
      rcases List.mem_map.mp hk with ⟨p, hp, hkp⟩
      exact List.mem_map.mpr ⟨p, (List.perm_insertionSort dateLe rows).mem_iff.mpr hp, hkp⟩
  · intro rows o ho
    exact ⟨latestSnapshot_mem ho, latestSnapshot_max ho⟩
  · intro rows o p hdist ho hp hk hne
    have hle : p.date ≤ o.date := latestSnapshot_max ho p hp hk
    have hsym : Symmetric (fun a b : InventoryObservation => keyOf a = keyOf b → a.date ≠ b.date) := by
      intro a b hab hk2
      exact fun hd => hab hk2.symm hd.symm
    have hne2 : p.date ≠ o.date := hdist.forall hsym hp (latestSnapshot_mem ho) hne hk
    exact lt_of_le_of_ne hle hne2
  · decide

/-- Witness for C6: the day-3 Jakarta row is an input row of maximal date for
its key; at the concrete input the membership hypothesis is discharged by
evaluating the selector. -/
theorem claim_C6_selector_witness :
    jak3 ∈ [jak1, jak2, jak3] ∧ jak1.date ≤ jak3.date :=
  ⟨(claim_C6_selector.2.1 [jak1, jak2, jak3] jak3 (by decide)).1,
   (claim_C6_selector.2.1 [jak1, jak2, jak3] jak3 (by decide)).2 jak1 (by decide) (by decide)⟩

/-! ### Alert lists and their ordering

The source sorts the critical alerts ascending by days_until_stockout_vs_lead
and the warning items ascending by days_of_therapy_left (pandas sort_values,
NaN placed last).  The sort is modelled with insertion sort on a NaN-last
total preorder over the optional metric. -/

/-- Ascending comparison on an optional metric with NaN (none) placed last,
the na_position policy of sort_values. -/
def optLeNanLast : Option ℚ → Option ℚ → Prop
  | some x, some y => x ≤ y
  | some _, none => True
  | none, some _ => False
  | none, none => True

instance optLeNanLast_dec : DecidableRel optLeNanLast
  | some x, some y => inferInstanceAs (Decidable (x ≤ y))
  | some _, none => Decidable.isTrue trivial
  | none, some _ => Decidable.isFalse (fun h => h)
  | none, none => Decidable.isTrue trivial

theorem optLeNanLast_total : ∀ x y : Option ℚ, optLeNanLast x y ∨ optLeNanLast y x
  | some x, some y => le_total x y
  | some _, none => Or.inl trivial
  | none, some _ => Or.inr trivial
  | none, none => Or.inl trivial

theorem optLeNanLast_trans :
    ∀ x y z : Option ℚ, optLeNanLast x y → optLeNanLast y z → optLeNanLast x z
  | some _, some _, some _, h1, h2 => le_trans h1 h2
  | some _, some _, none, _, _ => trivial
  | some _, none, some _, _, h2 => False.elim h2
  | some _, none, none, _, _ => trivial
  | none, some _, _, h1, _ => False.elim h1
  | none, none, some _, _, h2 => False.elim h2
  | none, none, none, _, _ => trivial

/-- Sort key of the critical-alert table: days_until_stockout_vs_lead. -/
def alertLe (a b : InventoryObservation) : Prop :=
  optLeNanLast (days_until_stockout_vs_lead a) (days_until_stockout_vs_lead b)

/-- Sort key of the warning list: days_of_therapy_left. -/
def warnLe (a b : InventoryObservation) : Prop :=
  optLeNanLast (days_of_therapy_left a) (days_of_therapy_left b)

instance : DecidableRel alertLe :=
  fun a b => optLeNanLast_dec (days_until_stockout_vs_lead a) (days_until_stockout_vs_lead b)

instance : IsTotal InventoryObservation alertLe :=
  ⟨fun _ _ => optLeNanLast_total _ _⟩

instance : IsTrans InventoryObservation alertLe :=
  ⟨fun _ _ _ h1 h2 => optLeNanLast_trans _ _ _ h1 h2⟩

instance : DecidableRel warnLe :=
  fun a b => optLeNanLast_dec (days_of_therapy_left a) (days_of_therapy_left b)

instance : IsTotal InventoryObservation warnLe :=
  ⟨fun _ _ => optLeNanLast_total _ _⟩

instance : IsTrans InventoryObservation warnLe :=
  ⟨fun _ _ _ h1 h2 => optLeNanLast_trans _ _ _ h1 h2⟩

/-- The critical-alert list: rows with days_until_stockout_vs_lead < 0, sorted
ascending by that shortfall. -/
def criticalAlerts (rows : List InventoryObservation) : List InventoryObservation :=
  List.insertionSort alertLe (rows.filter isCritical)

/-- The warning list: rows at risk but not past the lead-time horizon, sorted
ascending by days_of_therapy_left. -/
def warningItems (rows : List InventoryObservation) : List InventoryObservation :=
  List.insertionSort warnLe (rows.filter isWarning)

/-- The classifier output: critical alerts, warning items and the count of
adequately stocked rows. -/
structure AlertReport where
  critical : List InventoryObservation
  warning : List InventoryObservation
  adequate_count : Nat
deriving DecidableEq

/-- Classify a snapshot into the alert report. -/
def classify_alerts (snapshot : List InventoryObservation) : AlertReport :=
  ⟨criticalAlerts snapshot, warningItems snapshot, (snapshot.filter isAdequate).length⟩

/-- The whole pipeline: select the latest snapshot (the per-row metrics are
functions of the rows) and classify it. -/
def compute_pipeline (rows : List InventoryObservation) : AlertReport :=
  classify_alerts (latestSnapshot rows)

/-! ### Generic lemmas: filtering commutes with a stable insertion sort -/

theorem orderedInsert_eq_cons {α : Type} (r : α → α → Prop) [DecidableRel r] (a : α)
    (l : List α) (h : ∀ c ∈ l, r a c) : l.orderedInsert r a = a :: l := by
  cases l with
  | nil => rfl
  | cons b m => exact List.orderedInsert_of_le r m (h b (List.mem_cons_self b m))

theorem filter_orderedInsert_pos {α : Type} (r : α → α → Prop) [DecidableRel r] [IsTrans α r]
    (p : α → Bool) (a : α) (ha : p a = true) :
    ∀ l : List α, l.Sorted r → (l.orderedInsert r a).filter p = (l.filter p).orderedInsert r a
  | [], _ => by simp [ha]
  | b :: l, hs => by
    rw [List.sorted_cons] at hs
    by_cases hr : r a b
    · rw [List.orderedInsert_of_le r l hr, List.filter_cons_of_pos ha]
      cases hb : p b with
      | true =>
        rw [List.filter_cons_of_pos hb]
        exact (List.orderedInsert_of_le r _ hr).symm
      | false =>
        rw [List.filter_cons_of_neg (show ¬ p b = true by simp [hb])]
        exact (orderedInsert_eq_cons r a (l.filter p)
          (fun c hc => IsTrans.trans a b c hr (hs.1 c (List.mem_of_mem_filter hc)))).symm
    · simp only [List.orderedInsert]
      rw [if_neg hr]
      cases hb : p b with
      | true =>
        rw [List.filter_cons_of_pos hb, List.filter_cons_of_pos hb,
          filter_orderedInsert_pos r p a ha l hs.2]
        simp only [List.orderedInsert]
        rw [if_neg hr]
      | false =>
        rw [List.filter_cons_of_neg (show ¬ p b = true by simp [hb]),
          List.filter_cons_of_neg (show ¬ p b = true by simp [hb]),
          filter_orderedInsert_pos r p a ha l hs.2]

theorem filter_orderedInsert_neg {α : Type} (r : α → α → Prop) [DecidableRel r]
    (p : α → Bool) (a : α) (ha : p a = false) :
    ∀ l : List α, (l.orderedInsert r a).filter p = l.filter p
  | [] => by simp [ha]
  | b :: l => by
    by_cases hr : r a b
    · rw [List.orderedInsert_of_le r l hr,
        List.filter_cons_of_neg (show ¬ p a = true by simp [ha])]
    · simp only [List.orderedInsert]
      rw [if_neg hr]
      cases hb : p b with
      | true =>
        rw [List.filter_cons_of_pos hb, List.filter_cons_of_pos hb,
          filter_orderedInsert_neg r p a ha l]
      | false =>
        rw [List.filter_cons_of_neg (show ¬ p b = true by simp [hb]),
          List.filter_cons_of_neg (show ¬ p b = true by simp [hb]),
          filter_orderedInsert_neg r p a ha l]

theorem filter_insertionSort {α : Type} (r : α → α → Prop) [DecidableRel r]
    [IsTotal α r] [IsTrans α r] (p : α → Bool) :
    ∀ l : List α, (List.insertionSort r l).filter p = List.insertionSort r (l.filter p)
  | [] => rfl
  | b :: l => by
    simp only [List.insertionSort]
    cases hb : p b with
    | true =>
      rw [filter_orderedInsert_pos r p b hb _ (List.sorted_insertionSort r l),
        filter_insertionSort r p l, List.filter_cons_of_pos hb]
      simp only [List.insertionSort]
    | false =>
      rw [filter_orderedInsert_neg r p b hb, filter_insertionSort r p l,
        List.filter_cons_of_neg (show ¬ p b = true by simp [hb])]

/-! ### Ordering and filter-commutation claims -/

/-- C8.  Alert ordering: the critical-alert list is sorted ascending by
days_until_stockout_vs_lead and holds exactly the Critical rows; the warning
list is sorted ascending by days_of_therapy_left and holds exactly the Warning
rows. -/
theorem claim_C8_ordering :
    (∀ rows : List InventoryObservation,
      (criticalAlerts rows).Sorted alertLe ∧
      List.Perm (criticalAlerts rows) (rows.filter isCritical)) ∧
    (∀ rows : List InventoryObservation,
      (warningItems rows).Sorted warnLe ∧
      List.Perm (warningItems rows) (rows.filter isWarning)) :=
  ⟨fun _ => ⟨List.sorted_insertionSort alertLe _, List.perm_insertionSort alertLe _⟩,
   fun _ => ⟨List.sorted_insertionSort warnLe _, List.perm_insertionSort warnLe _⟩⟩

/-- C10.  Filter commutation: restricting a snapshot to a subset of provinces
and re-running the classifier yields exactly the unfiltered critical list
restricted to those provinces, row for row; and the pipeline is a pure
function, so running it twice on identical inputs yields identical outputs. -/
theorem claim_C10_filter_commute :
    (∀ (rows : List InventoryObservation) (S : List String),
      criticalAlerts (rows.filter (fun o => decide (o.location ∈ S))) =
        (criticalAlerts rows).filter (fun o => decide (o.location ∈ S))) ∧
    (∀ rows : List InventoryObservation, compute_pipeline rows = compute_pipeline rows) := by
  constructor
  · intro rows S
    unfold criticalAlerts
    rw [List.filter_comm, ← filter_insertionSort alertLe _ (rows.filter isCritical)]
  · intro rows
    rfl

end TBCare
